import Mathlib

/-!
Shallow embedding of the `pyopls` O-PLS estimator (`src/pyopls/opls.py`).

Matrices are functions `Fin n → Fin m → ℝ` and numpy's float arithmetic is
modelled by real arithmetic.  Every definition below is a line-by-line
translation of the referenced python source; line numbers refer to
`src/pyopls/opls.py`.
-/

namespace PyOPLS

noncomputable section

open scoped BigOperators

/-- A column vector with `n` entries (an `(n,)` or `(n,1)` numpy array). -/
abbrev Vec (n : ℕ) := Fin n → ℝ

/-- A dense `n × m` matrix. -/
abbrev Mat (n m : ℕ) := Fin n → Fin m → ℝ

/-- Dot product (`v.T @ w` of two column vectors). -/
def dot {m : ℕ} (v w : Vec m) : ℝ := ∑ j, v j * w j

/-- Euclidean norm, `np.linalg.norm`. -/
def norm2 {m : ℕ} (v : Vec m) : ℝ := Real.sqrt (dot v v)

/-- Division of a vector by its Euclidean norm (`v / np.linalg.norm(v)`). -/
def normalize {m : ℕ} (v : Vec m) : Vec m := fun j => v j / norm2 v

/-- Mean of all entries of a vector (`Y.mean(axis=0)` for an `(n,1)` array). -/
def mean {n : ℕ} (v : Vec n) : ℝ := (∑ i, v i) / (n : ℝ)

/-- Per-column means, `X.mean(axis=0)`. -/
def colMean {n m : ℕ} (X : Mat n m) : Vec m := fun j => (∑ i, X i j) / (n : ℝ)

/-- Translation of `np.clip(x, lo, hi)`, i.e. `minimum(hi, maximum(lo, x))`. -/
def clip (x lo hi : ℝ) : ℝ := min hi (max lo x)

/-- Fold computing the minimum of a nonempty vector. -/
def vecMinAux : (j : ℕ) → Vec (j + 1) → ℝ
  | 0, v => v 0
  | j + 1, v => min (v 0) (vecMinAux j (fun i => v i.succ))

/-- Minimum entry, `np.min` of an array (the value on an empty array is irrelevant here). -/
def vecMin : {n : ℕ} → Vec n → ℝ
  | 0, _ => 0
  | j + 1, v => vecMinAux j v

/-- Fold computing the maximum of a nonempty vector. -/
def vecMaxAux : (j : ℕ) → Vec (j + 1) → ℝ
  | 0, v => v 0
  | j + 1, v => max (v 0) (vecMaxAux j (fun i => v i.succ))

/-- Maximum entry, `np.max` of an array (the value on an empty array is irrelevant here). -/
def vecMax : {n : ℕ} → Vec n → ℝ
  | 0, _ => 0
  | j + 1, v => vecMaxAux j v

/-- Lines 160-161 (and 174-175): `w = ((Y_res.T @ X_res) / (Y_res.T @ Y_res)).T`
followed by `w = w / np.linalg.norm(w)`. -/
def plsW {n m : ℕ} (Yres : Vec n) (X : Mat n m) : Vec m :=
  normalize (fun j => dot Yres (fun i => X i j) / dot Yres Yres)

/-- Line 162 (and 176): `t = (X_res @ w) / (w.T @ w)`. -/
def plsT {n m : ℕ} (Yres : Vec n) (X : Mat n m) : Vec n :=
  fun i => dot (X i) (plsW Yres X) / dot (plsW Yres X) (plsW Yres X)

/-- Line 163 (and 179): `p = ((t.T @ X_res) / (t.T @ t)).T`. -/
def plsP {n m : ℕ} (Yres : Vec n) (X : Mat n m) : Vec m :=
  fun j => dot (plsT Yres X) (fun i => X i j) / dot (plsT Yres X) (plsT Yres X)

/-- Lines 166-167: `w_ortho = p - float((w.T @ p) / (w.T @ w)) * w`, then
`w_ortho = w_ortho / np.linalg.norm(w_ortho)`. -/
def wOrtho {n m : ℕ} (Yres : Vec n) (X : Mat n m) : Vec m :=
  normalize (fun j =>
    plsP Yres X j -
      dot (plsW Yres X) (plsP Yres X) / dot (plsW Yres X) (plsW Yres X) * plsW Yres X j)

/-- Line 168: `t_ortho = (X_res @ w_ortho) / (w_ortho.T @ w_ortho)`. -/
def tOrtho {n m : ℕ} (Yres : Vec n) (X : Mat n m) : Vec n :=
  fun i => dot (X i) (wOrtho Yres X) / dot (wOrtho Yres X) (wOrtho Yres X)

/-- Line 169: `p_ortho = (t_ortho.T @ X_res) / (t_ortho.T @ t_ortho)`. -/
def pOrtho {n m : ℕ} (Yres : Vec n) (X : Mat n m) : Vec m :=
  fun j => dot (tOrtho Yres X) (fun i => X i j) / dot (tOrtho Yres X) (tOrtho Yres X)

/-- Line 170: the deflated residual
`X_res - t_ortho[:, i][:, np.newaxis] @ p_ortho[:, i][np.newaxis, :]`. -/
def deflate {n m : ℕ} (Yres : Vec n) (X : Mat n m) : Mat n m :=
  fun i j => X i j - tOrtho Yres X i * pOrtho Yres X j

/-- The mutable state of the extraction loop of `fit` (lines 158-170): the
evolving X residual, the Y residual and the three component arrays. -/
@[ext]
structure LoopState (n m k : ℕ) where
  Xres : Mat n m
  Yres : Vec n
  Wo : Fin m → Fin k → ℝ
  Po : Fin m → Fin k → ℝ
  To : Fin n → Fin k → ℝ

/-- One iteration of the `for i in range(0, self.n_components)` loop
(lines 158-170): store the current component in column `i` and deflate. -/
def loopBody {n m k : ℕ} (st : LoopState n m k) (i : Fin k) : LoopState n m k where
  Xres := deflate st.Yres st.Xres
  Yres := st.Yres
  Wo := fun r c => if c = i then wOrtho st.Yres st.Xres r else st.Wo r c
  Po := fun r c => if c = i then pOrtho st.Yres st.Xres r else st.Po r c
  To := fun r c => if c = i then tOrtho st.Yres st.Xres r else st.To r c

/-- Lines 140-142: the component arrays are zero-initialised before the loop. -/
def loopInit {n m : ℕ} (k : ℕ) (X0 : Mat n m) (Yres : Vec n) : LoopState n m k :=
  ⟨X0, Yres, fun _ _ => 0, fun _ _ => 0, fun _ _ => 0⟩

/-- The whole extraction loop of `fit`, lines 158-170. -/
def loopRun {n m : ℕ} (k : ℕ) (X0 : Mat n m) (Yres : Vec n) : LoopState n m k :=
  (List.finRange k).foldl loopBody (loopInit k X0 Yres)

/-- The evolving X residual after `j` deflation steps. -/
def residAfter {n m : ℕ} (Yres : Vec n) (X0 : Mat n m) : ℕ → Mat n m
  | 0 => X0
  | j + 1 => deflate Yres (residAfter Yres X0 j)

/-- Column-wise centering `X - X.mean(axis=0)` (line 111 and lines 153-154, 219). -/
def centerX {n m : ℕ} (X : Mat n m) : Mat n m := fun i j => X i j - colMean X j

/-- Centering `v - v.mean(axis=0)` for a column vector. -/
def centerYv {n : ℕ} (v : Vec n) : Vec n := fun i => v i - mean v

/-- Translation of `np.std(X, axis=0, ddof=1)` at column `j` (subtracts the column mean,
divides the sum of squares by `n - 1`, then takes the square root). -/
def stdCol {n m : ℕ} (X : Mat n m) (j : Fin m) : ℝ :=
  Real.sqrt ((∑ i, (X i j - colMean X j) ^ 2) / ((n : ℝ) - 1))

/-- Translation of `np.std(v, axis=0, ddof=1)` for a column vector. -/
def stdVec {n : ℕ} (v : Vec n) : ℝ :=
  Real.sqrt ((∑ i, (v i - mean v) ^ 2) / ((n : ℝ) - 1))

/-- Lines 114-117 and 122 of `_center_scale_xy`: the per-column standard
deviation of the centered X with the zero-variance remap
`x_std[x_std == 0.0] = 1.0`, or all ones when scaling is disabled. -/
def xStdv {n m : ℕ} (scale : Bool) (X : Mat n m) : Vec m :=
  if scale then
    fun j => if stdCol (centerX X) j = 0 then 1 else stdCol (centerX X) j
  else fun _ => 1

/-- Lines 118-120 and 123 of `_center_scale_xy` for the (single-column) Y. -/
def yStdv {n : ℕ} (scale : Bool) (v : Vec n) : ℝ :=
  if scale then (if stdVec (centerYv v) = 0 then 1 else stdVec (centerYv v)) else 1

/-- The centered-and-scaled X returned by `_center_scale_xy`. -/
def csX {n m : ℕ} (scale : Bool) (X : Mat n m) : Mat n m :=
  fun i j => centerX X i j / xStdv scale X j

/-- The centered-and-scaled Y returned by `_center_scale_xy`; this is the
array whose `np.min` / `np.max` line 151 stores into `y_min_` / `y_max_`. -/
def csYv {n : ℕ} (scale : Bool) (v : Vec n) : Vec n :=
  fun i => centerYv v i / yStdv scale v

/-- Line 153: `X_res = np.array(X - np.mean(X, 0))`, applied to the already
centered-and-scaled X. -/
def fitXres0 {n m : ℕ} (scale : Bool) (X : Mat n m) : Mat n m := centerX (csX scale X)

/-- Line 154: `Y_res = np.array(Y - np.mean(Y, 0))`, applied to the already
centered-and-scaled Y. -/
def fitYres {n : ℕ} (scale : Bool) (v : Vec n) : Vec n := centerYv (csYv scale v)

/-- Line 156: `SS_X = np.sum(np.square(X_res))`. -/
def fitSSX {n m : ℕ} (scale : Bool) (X : Mat n m) : ℝ :=
  ∑ i, ∑ j, fitXres0 scale X i j ^ 2

/-- Line 155: `SS_Y = np.sum(np.square(Y_res))`. -/
def fitSSY {n : ℕ} (scale : Bool) (v : Vec n) : ℝ := ∑ i, fitYres scale v i ^ 2

/-- The loop state after the full extraction loop inside `fit`. -/
def fitFinal {n m : ℕ} (scale : Bool) (k : ℕ) (X : Mat n m) (v : Vec n) :
    LoopState n m k :=
  loopRun k (fitXres0 scale X) (fitYres scale v)

/-- Lines 174-175: the terminal predictive weight `w`. -/
def fitW {n m : ℕ} (scale : Bool) (k : ℕ) (X : Mat n m) (v : Vec n) : Vec m :=
  plsW (fitYres scale v) (fitFinal scale k X v).Xres

/-- Line 176: the terminal predictive score `t`. -/
def fitT {n m : ℕ} (scale : Bool) (k : ℕ) (X : Mat n m) (v : Vec n) : Vec n :=
  plsT (fitYres scale v) (fitFinal scale k X v).Xres

/-- Line 177: `c = ((t.T @ Y_res) / (t.T @ t)).item()`. -/
def fitC {n m : ℕ} (scale : Bool) (k : ℕ) (X : Mat n m) (v : Vec n) : ℝ :=
  dot (fitT scale k X v) (fitYres scale v) / dot (fitT scale k X v) (fitT scale k X v)

/-- Line 178: `u = (Y_res * c) / (c ** 2)`. -/
def fitU {n m : ℕ} (scale : Bool) (k : ℕ) (X : Mat n m) (v : Vec n) : Vec n :=
  fun i => fitYres scale v i * fitC scale k X v / fitC scale k X v ^ 2

/-- Line 179: the terminal predictive loading `p`. -/
def fitP {n m : ℕ} (scale : Bool) (k : ℕ) (X : Mat n m) (v : Vec n) : Vec m :=
  plsP (fitYres scale v) (fitFinal scale k X v).Xres

/-- Line 181: `b_l = ((1.0 / (t.T @ t)) * (u.T @ t)).item()`. -/
def fitB {n m : ℕ} (scale : Bool) (k : ℕ) (X : Mat n m) (v : Vec n) : ℝ :=
  1 / dot (fitT scale k X v) (fitT scale k X v) * dot (fitU scale k X v) (fitT scale k X v)

/-- Lines 196-198: `W_star = w * (1.0 / (p.T @ w))`, `B_pls = W_star * b_l * c`,
reshaped to a column. -/
def fitCoef {n m : ℕ} (scale : Bool) (k : ℕ) (X : Mat n m) (v : Vec n) : Vec m :=
  fun j => fitW scale k X v j * (1 / dot (fitP scale k X v) (fitW scale k X v)) *
    fitB scale k X v * fitC scale k X v

/-- Line 200: `r_squared_X_ = ((t.T @ t) * (p.T @ p) / SS_X).item()`. -/
def fitR2X {n m : ℕ} (scale : Bool) (k : ℕ) (X : Mat n m) (v : Vec n) : ℝ :=
  dot (fitT scale k X v) (fitT scale k X v) *
    dot (fitP scale k X v) (fitP scale k X v) / fitSSX scale X

/-- Line 201: `r_squared_Y_ = ((t.T @ t) * (b_l ** 2.0) * (c ** 2.0) / SS_Y).item()`. -/
def fitR2Y {n m : ℕ} (scale : Bool) (k : ℕ) (X : Mat n m) (v : Vec n) : ℝ :=
  dot (fitT scale k X v) (fitT scale k X v) * fitB scale k X v ^ 2 *
    fitC scale k X v ^ 2 / fitSSY scale v

/-- Line 202: `residual_sum_sq_Y_ = -1 * (self.r_squared_Y_ - 1) * self.sum_sq_Y_`. -/
def fitRSS {n m : ℕ} (scale : Bool) (k : ℕ) (X : Mat n m) (v : Vec n) : ℝ :=
  -1 * (fitR2Y scale k X v - 1) * fitSSY scale v

/-- The model state written by a successful `fit` (lines 150-202). -/
structure FittedModel (n m k : ℕ) where
  y_weights : ℝ
  y_scores : Vec n
  x_scores : Vec n
  x_loadings : Vec m
  x_weights : Vec m
  orthogonal_x_scores : Fin n → Fin k → ℝ
  orthogonal_x_loadings : Fin m → Fin k → ℝ
  orthogonal_x_weights : Fin m → Fin k → ℝ
  coef : Vec m
  x_mean : Vec m
  y_mean : ℝ
  y_min : ℝ
  y_max : ℝ
  x_std : Vec m
  y_std : ℝ
  sum_sq_X : ℝ
  sum_sq_Y : ℝ
  r_squared_X : ℝ
  r_squared_Y : ℝ
  residual_sum_sq_Y : ℝ

/-- Lines 150-202 of `fit`: the model state assembled after the shape check
passed, for the single Y column `v`. -/
def fitModel {n m : ℕ} (scale : Bool) (k : ℕ) (X : Mat n m) (v : Vec n) :
    FittedModel n m k where
  y_weights := fitC scale k X v
  y_scores := fitU scale k X v
  x_scores := fitT scale k X v
  x_loadings := fitP scale k X v
  x_weights := fitW scale k X v
  orthogonal_x_scores := (fitFinal scale k X v).To
  orthogonal_x_loadings := (fitFinal scale k X v).Po
  orthogonal_x_weights := (fitFinal scale k X v).Wo
  coef := fitCoef scale k X v
  x_mean := colMean X
  y_mean := mean v
  y_min := vecMin (csYv scale v)
  y_max := vecMax (csYv scale v)
  x_std := xStdv scale X
  y_std := yStdv scale v
  sum_sq_X := fitSSX scale X
  sum_sq_Y := fitSSY scale v
  r_squared_X := fitR2X scale k X v
  r_squared_Y := fitR2Y scale k X v
  residual_sum_sq_Y := fitRSS scale k X v

/-- The error raised by the shape guard of `fit` (lines 146-148). -/
inductive FitErr where
  | shape
deriving DecidableEq

/-- The single column of an `(n,1)` target array. -/
def Ycol {n : ℕ} (Y : Mat n 1) : Vec n := fun i => Y i 0

/-- Method `fit` (lines 126-203): the `Y.shape != (X.shape[0], 1)` guard of lines
146-148 raises before any model state is assigned; otherwise the model state
is constructed.  Row counts of `X` and `Y` agree by typing, so the guard
reduces to the number of Y columns being exactly one. -/
def fit {n m my : ℕ} (scale : Bool) (k : ℕ) (X : Mat n m) (Y : Mat n my) :
    Except FitErr (FittedModel n m k) :=
  match my, Y with
  | 1, Y => Except.ok (fitModel scale k X (Ycol Y))
  | 0, _ => Except.error FitErr.shape
  | _ + 2, _ => Except.error FitErr.shape

/-- Lines 222-225: one step of the apply-time orthogonal filter
`z - (z @ w / (w.T @ w)) @ p.T`. -/
def transformStep {n' m : ℕ} (wv pv : Vec m) (z : Mat n' m) : Mat n' m :=
  fun i j => z i j - dot (z i) wv / dot wv wv * pv j

/-- Method `transform` (lines 205-226): center with the input's own column means,
then filter out each stored orthogonal component in extraction order. -/
def transform {n m k n' : ℕ} (M : FittedModel n m k) (X' : Mat n' m) : Mat n' m :=
  (List.finRange k).foldl
    (fun z f =>
      transformStep (fun r => M.orthogonal_x_weights r f)
        (fun r => M.orthogonal_x_loadings r f) z)
    (centerX X')

/-- Method `predict` (lines 228-243): `np.dot(self.transform(X), self.coef_) + self.y_mean_`. -/
def predict {n m k n' : ℕ} (M : FittedModel n m k) (X' : Mat n' m) : Vec n' :=
  fun i => dot (transform M X' i) M.coef + M.y_mean

/-- Method `predict_proba` (lines 245-255): `0.5 * np.clip(self.predict(X), -1, 1) + 1`. -/
def predict_proba {n m k n' : ℕ} (M : FittedModel n m k) (X' : Mat n' m) : Vec n' :=
  fun i => 0.5 * clip (predict M X' i) (-1) 1 + 1

/-- Method `pressd` (lines 315-316): squared residuals of the prediction clipped to
the stored `[y_min_, y_max_]`. -/
def pressd {n m k n' : ℕ} (M : FittedModel n m k) (X' : Mat n' m) (y : Vec n') : ℝ :=
  ∑ i, (y i - clip (predict M X' i) M.y_min M.y_max) ^ 2

/-- Method `press` (lines 312-313). -/
def press {n m k n' : ℕ} (M : FittedModel n m k) (X' : Mat n' m) (y : Vec n') : ℝ :=
  ∑ i, (y i - predict M X' i) ^ 2

/-- Result of `orthogonal_transform`: either the x-scores alone or the pair
of x-scores and y-scores (line 294 of the docstring, lines 309-310). -/
inductive OrthResult (n' k : ℕ) where
  | xOnly (xs : Fin n' → Fin k → ℝ)
  | both (xs : Fin n' → Fin k → ℝ) (ys : Vec n')

/-- Line 305: `np.dot((X - self.x_mean_) / self.x_std_, self.orthogonal_x_weights_)`. -/
def xScores {n m k n' : ℕ} (M : FittedModel n m k) (X' : Mat n' m) :
    Fin n' → Fin k → ℝ :=
  fun i f =>
    dot (fun j => (X' i j - M.x_mean j) / M.x_std j) (fun j => M.orthogonal_x_weights j f)

/-- Method `orthogonal_transform` (lines 277-310) on a fitted model: x-scores from the
stored training statistics, plus y-scores when a target is supplied. -/
def orthogonal_transform {n m k n' : ℕ} (M : FittedModel n m k) (X' : Mat n' m)
    (Yq : Option (Vec n')) : OrthResult n' k :=
  match Yq with
  | some yv =>
      OrthResult.both (xScores M X') (fun i => (yv i - M.y_mean) / M.y_std * M.y_weights)
  | none => OrthResult.xOnly (xScores M X')

/-- The attribute state of an `OPLS` object: `__init__` (lines 76-100) sets
every model attribute to `None`; `fit` replaces them with arrays.  Only the
attributes read by the apply-time methods are modelled. -/
structure OPLSAttrs (n m k : ℕ) where
  x_mean : Option (Vec m)
  x_std : Option (Vec m)
  y_mean : Option ℝ
  y_std : Option ℝ
  y_weights : Option ℝ
  coef : Option (Vec m)
  orthogonal_x_weights : Option (Fin m → Fin k → ℝ)
  orthogonal_x_loadings : Option (Fin m → Fin k → ℝ)

/-- The state right after `__init__`: every attribute is `None`. -/
def initAttrs (n m k : ℕ) : OPLSAttrs n m k :=
  ⟨none, none, none, none, none, none, none, none⟩

/-- Errors the apply-time methods can raise: the sklearn `NotFittedError`, and
the python `TypeError` from subscripting / doing arithmetic on a `None`
attribute. -/
inductive PyErr where
  | notFitted
  | noneType
deriving DecidableEq

/-- Translation of `sklearn.utils.validation.check_is_fitted(self, 'x_mean_')` (lines 241 and
303), modelled by its contract as the spec's external collaborator: it raises
the not-fitted error exactly when the named fitted attribute is unset. -/
def checkFitted {n m k : ℕ} (st : OPLSAttrs n m k) : Except PyErr Unit :=
  match st.x_mean with
  | some _ => Except.ok ()
  | none => Except.error PyErr.notFitted

/-- Method `transform` (lines 205-226) on the raw attribute state.  There is no
fitted-state check; each loop iteration subscripts the possibly-`None` stored
arrays, which on an unfitted model raises the `None`-subscript type error. -/
def transformA {n m k n' : ℕ} (st : OPLSAttrs n m k) (X' : Mat n' m) :
    Except PyErr (Mat n' m) :=
  (List.finRange k).foldlM
    (fun z f =>
      match st.orthogonal_x_weights, st.orthogonal_x_loadings with
      | some W, some P =>
          Except.ok (transformStep (fun r => W r f) (fun r => P r f) z)
      | _, _ => Except.error PyErr.noneType)
    (centerX X')

/-- Method `predict` (lines 228-243) on the raw attribute state: `check_is_fitted`
first, then `transform`, then the dot product with `coef_`. -/
def predictA {n m k n' : ℕ} (st : OPLSAttrs n m k) (X' : Mat n' m) :
    Except PyErr (Vec n') := do
  _ ← checkFitted st
  let z ← transformA st X'
  match st.coef, st.y_mean with
  | some c, some ym => Except.ok (fun i => dot (z i) c + ym)
  | _, _ => Except.error PyErr.noneType

/-- Method `orthogonal_transform` (lines 277-310) on the raw attribute state:
`check_is_fitted` first, then the projections. -/
def orthogonalTransformA {n m k n' : ℕ} (st : OPLSAttrs n m k) (X' : Mat n' m)
    (Yq : Option (Vec n')) : Except PyErr (OrthResult n' k) := do
  _ ← checkFitted st
  match st.x_mean, st.x_std, st.orthogonal_x_weights with
  | some xm, some xs, some W =>
      let sc : Fin n' → Fin k → ℝ :=
        fun i f => dot (fun j => (X' i j - xm j) / xs j) (fun j => W j f)
      match Yq with
      | some yv =>
          match st.y_mean, st.y_std, st.y_weights with
          | some ym, some ys, some c =>
              Except.ok (OrthResult.both sc (fun i => (yv i - ym) / ys * c))
          | _, _, _ => Except.error PyErr.noneType
      | none => Except.ok (OrthResult.xOnly sc)
  | _, _, _ => Except.error PyErr.noneType

/-! ### Concrete data used by witnesses and counterexamples -/

/-- A concrete `3 × 2` feature matrix of rank 2 whose centered form is
`[[-1,-3],[0,1],[1,2]]`: fitting on it is numerically nondegenerate (every
norm and denominator of the extraction loop and the terminal regression is
strictly positive, so no division by zero occurs anywhere in the fit). -/
def Xa : Mat 3 2 := ![![1, 0], ![2, 4], ![3, 5]]

/-- A concrete target column with values `4`, `5`, `6` (mean `5`, centered
form `(-1, 0, 1)`). -/
def Ya : Vec 3 := ![4, 5, 6]

/-- A concrete target column with values `2`, `3`, `4` (mean `3`, centered
form `(-1, 0, 1)`). -/
def Yb : Vec 3 := ![2, 3, 4]

/-- A single-row apply-time input (all entries `7`). -/
def Xrow7 : Mat 1 2 := fun _ _ => 7

/-- A concrete observed target for `pressd`. -/
def yObs : Vec 1 := fun _ => 4

/-- A concrete feature matrix for the shape-rejection witness. -/
def X6 : Mat 1 1 := fun _ _ => 0

/-- A concrete two-column target, rejected by `fit`. -/
def Y6 : Mat 1 2 := fun _ _ => 0

/-- A concrete single-row input for the unfitted-model counterexample. -/
def Xcex5 : Mat 1 1 := fun _ _ => 1

/-- A concrete rank-2 feature matrix for the `pressd` witness. -/
def Xw3 : Mat 3 2 := ![![1, 1], ![2, 3], ![3, 4]]

/-- A concrete `(3,1)` target for the `pressd` witness. -/
def Yw3 : Mat 3 1 := ![![1], ![2], ![3]]

/-- A concrete feature matrix for the diagnostics witness. -/
def Xw8 : Mat 2 2 := fun i j => (i.val : ℝ) + (j.val : ℝ)

/-- A concrete `(2,1)` target for the diagnostics witness. -/
def Yw8 : Mat 2 1 := fun i _ => if i.val = 0 then 0 else 2

/-- A feature matrix whose second column has zero variance. -/
def Xw9 : Mat 2 2 := fun i j => if j.val = 0 then (i.val : ℝ) else 3

/-- A zero-variance `(2,1)` target (all entries `3`). -/
def Yw9 : Mat 2 1 := fun _ _ => 3

/-! ### Helper lemmas -/

/-- Updating column `j` of an array whose columns below `j` are already
filled in extends the filled range to `j + 1`. -/
lemma colUpdate {k : ℕ} {α : Type} (g : ℕ → α) (z : α) {j : ℕ} (hjk : j < k)
    (c : Fin k) :
    (if c = (⟨j, hjk⟩ : Fin k) then g j else if c.val < j then g c.val else z) =
      if c.val < j + 1 then g c.val else z := by
  by_cases hc : c = (⟨j, hjk⟩ : Fin k)
  · subst hc; simp
  · have hcj : (c : ℕ) ≠ j := fun hv => hc (Fin.ext hv)
    by_cases hlt : (c : ℕ) < j
    · simp [hc, hlt, Nat.lt_succ_of_lt hlt]
    · have h1 : ¬ (c : ℕ) < j + 1 := by omega
      simp [hc, hlt, h1]

/-- The extraction loop after its first `j` iterations: the residual has been
deflated `j` times, the Y residual is untouched, columns below `j` hold the
components of the successive residuals and the remaining columns are still
zero. -/
lemma loopRun_take {n m : ℕ} (k : ℕ) (X0 : Mat n m) (Yres : Vec n) :
    ∀ j, j ≤ k →
      ((List.finRange k).take j).foldl loopBody (loopInit k X0 Yres) =
        ⟨residAfter Yres X0 j, Yres,
         fun r c => if c.val < j then wOrtho Yres (residAfter Yres X0 c.val) r else 0,
         fun r c => if c.val < j then pOrtho Yres (residAfter Yres X0 c.val) r else 0,
         fun r c => if c.val < j then tOrtho Yres (residAfter Yres X0 c.val) r else 0⟩ := by
  intro j hj
  induction j with
  | zero => simp [loopInit, residAfter]
  | succ j ih =>
      have hjk : j < k := hj
      have hlen : j < (List.finRange k).length := by simpa using hjk
      rw [List.take_succ, List.getElem?_eq_getElem hlen, List.foldl_append,
        ih (le_of_lt hjk)]
      have helem : (List.finRange k)[j] = (⟨j, hjk⟩ : Fin k) := by
        simp [List.getElem_finRange]
      rw [helem]
      simp only [Option.toList_some, List.foldl_cons, List.foldl_nil]
      ext
      · show deflate Yres (residAfter Yres X0 j) _ _ = residAfter Yres X0 (j + 1) _ _
        rfl
      · rfl
      · rename_i r c
        exact colUpdate (fun a => wOrtho Yres (residAfter Yres X0 a) r) 0 hjk c
      · rename_i r c
        exact colUpdate (fun a => pOrtho Yres (residAfter Yres X0 a) r) 0 hjk c
      · rename_i r c
        exact colUpdate (fun a => tOrtho Yres (residAfter Yres X0 a) r) 0 hjk c

/-- The full extraction loop, characterised by the deflation recurrence. -/
lemma loopRun_eq {n m : ℕ} (k : ℕ) (X0 : Mat n m) (Yres : Vec n) :
    loopRun k X0 Yres =
      ⟨residAfter Yres X0 k, Yres,
       fun r c => if c.val < k then wOrtho Yres (residAfter Yres X0 c.val) r else 0,
       fun r c => if c.val < k then pOrtho Yres (residAfter Yres X0 c.val) r else 0,
       fun r c => if c.val < k then tOrtho Yres (residAfter Yres X0 c.val) r else 0⟩ := by
  have h := loopRun_take k X0 Yres k le_rfl
  rwa [List.take_of_length_le (by simp)] at h

/-- The column means of a centered matrix vanish. -/
lemma colMean_centerX {n m : ℕ} (X : Mat n m) (j : Fin m) :
    colMean (centerX X) j = 0 := by
  unfold colMean centerX
  rw [Finset.sum_sub_distrib, Finset.sum_const, Finset.card_univ, Fintype.card_fin]
  rcases Nat.eq_zero_or_pos n with h | h
  · subst h; simp
  · have hn : (n : ℝ) ≠ 0 := by positivity
    rw [nsmul_eq_mul]
    unfold colMean
    rw [mul_div_cancel₀ _ hn, sub_self, zero_div]

/-- The sample standard deviation is unchanged by centering the columns. -/
lemma stdCol_centerX {n m : ℕ} (X : Mat n m) (j : Fin m) :
    stdCol (centerX X) j = stdCol X j := by
  unfold stdCol
  rw [colMean_centerX]
  simp [centerX]

/-- The mean of a centered vector vanishes. -/
lemma mean_centerYv {n : ℕ} (v : Vec n) : mean (centerYv v) = 0 := by
  unfold mean centerYv
  rw [Finset.sum_sub_distrib, Finset.sum_const, Finset.card_univ, Fintype.card_fin]
  rcases Nat.eq_zero_or_pos n with h | h
  · subst h; simp
  · have hn : (n : ℝ) ≠ 0 := by positivity
    rw [nsmul_eq_mul]
    unfold mean
    rw [mul_div_cancel₀ _ hn, sub_self, zero_div]

/-- The sample standard deviation is unchanged by centering the vector. -/
lemma stdVec_centerYv {n : ℕ} (v : Vec n) : stdVec (centerYv v) = stdVec v := by
  unfold stdVec
  rw [mean_centerYv]
  simp [centerYv]

/-- A single-row input is centered to the zero matrix. -/
lemma centerX_single_row {m : ℕ} (X' : Mat 1 m) :
    centerX X' = fun _ _ => 0 := by
  funext i j
  have hi : i = 0 := Subsingleton.elim i 0
  subst hi
  simp [centerX, colMean]

/-- The filter step maps the zero matrix to itself. -/
lemma transformStep_zero {n' m : ℕ} (wv pv : Vec m) :
    transformStep wv pv ((fun _ _ => 0) : Mat n' m) = fun _ _ => 0 := by
  funext i j
  simp [transformStep, dot]

/-- Folding the filter steps over any component list keeps the zero matrix. -/
lemma foldl_transformStep_zero {n' m : ℕ} {α : Type} (l : List α)
    (Wf Pf : α → Vec m) :
    l.foldl (fun (z : Mat n' m) f => transformStep (Wf f) (Pf f) z)
      ((fun _ _ => 0) : Mat n' m) = fun _ _ => 0 := by
  induction l with
  | nil => rfl
  | cons a l ih => rw [List.foldl_cons, transformStep_zero, ih]

/-- On a single-row input `transform` returns the zero matrix: the local
centering zeroes the row and the filter preserves zero. -/
lemma transform_single_row {n m k : ℕ} (M : FittedModel n m k) (X' : Mat 1 m) :
    transform M X' = fun _ _ => 0 := by
  unfold transform
  rw [centerX_single_row]
  exact foldl_transformStep_zero _ _ _

/-- On a single-row input `predict` returns the stored target mean. -/
lemma predict_single_row {n m k : ℕ} (M : FittedModel n m k) (X' : Mat 1 m)
    (i : Fin 1) : predict M X' i = M.y_mean := by
  simp [predict, transform_single_row, dot]

/-! ### Claim theorems -/

/-- C1: during `fit` the orthogonal extraction loop runs exactly
`n_components` iterations on the evolving X residual: the final residual is
the `n_components`-fold deflation of the initial one; iteration `i` computes
`w`, `t`, `p`, `w_ortho`, `t_ortho`, `p_ortho` by the formulas of lines
160-169 applied to the `i`-times-deflated residual (the definitions `plsW`,
`plsT`, `plsP`, `wOrtho`, `tOrtho`, `pOrtho`), stores `w_ortho`, `p_ortho`,
`t_ortho` in column `i` of the stored arrays, and replaces the residual by
the rank-1 deflation `X_res - t_ortho p_orthoᵀ`; the Y residual is never
modified in this loop. -/
theorem extraction_loop_spec {n m : ℕ} (scale : Bool) (k : ℕ) (X : Mat n m)
    (v : Vec n) :
    (fitFinal scale k X v).Yres = fitYres scale v ∧
    (fitFinal scale k X v).Xres =
      residAfter (fitYres scale v) (fitXres0 scale X) k ∧
    (∀ j, residAfter (fitYres scale v) (fitXres0 scale X) (j + 1) =
      deflate (fitYres scale v)
        (residAfter (fitYres scale v) (fitXres0 scale X) j)) ∧
    ∀ i : Fin k,
      (∀ r, (fitModel scale k X v).orthogonal_x_weights r i =
        wOrtho (fitYres scale v)
          (residAfter (fitYres scale v) (fitXres0 scale X) i.val) r) ∧
      (∀ r, (fitModel scale k X v).orthogonal_x_loadings r i =
        pOrtho (fitYres scale v)
          (residAfter (fitYres scale v) (fitXres0 scale X) i.val) r) ∧
      (∀ r, (fitModel scale k X v).orthogonal_x_scores r i =
        tOrtho (fitYres scale v)
          (residAfter (fitYres scale v) (fitXres0 scale X) i.val) r) := by
  have h := loopRun_eq k (fitXres0 scale X) (fitYres scale v)
  refine ⟨?_, ?_, fun j => rfl, fun i => ⟨fun r => ?_, fun r => ?_, fun r => ?_⟩⟩
  · show (loopRun k (fitXres0 scale X) (fitYres scale v)).Yres = fitYres scale v
    rw [h]
  · show (loopRun k (fitXres0 scale X) (fitYres scale v)).Xres = _
    rw [h]
  · show (loopRun k (fitXres0 scale X) (fitYres scale v)).Wo r i = _
    rw [h]
    simp [i.isLt]
  · show (loopRun k (fitXres0 scale X) (fitYres scale v)).Po r i = _
    rw [h]
    simp [i.isLt]
  · show (loopRun k (fitXres0 scale X) (fitYres scale v)).To r i = _
    rw [h]
    simp [i.isLt]

/-- C2: for any fitted model and any input, `predict(X)` equals
`dot(transform(X), coef_) + y_mean` entrywise, exactly as line 243 states. -/
theorem predict_identity {n m k p : ℕ} (M : FittedModel n m k) (Z : Mat p m)
    (i : Fin p) :
    predict M Z i = (∑ j, transform M Z i j * M.coef j) + M.y_mean := rfl

/-- C6: `fit` with a target having two or more columns always fails with the
shape-violation error of lines 146-148, for every feature matrix; the error
is returned without constructing any model state. -/
theorem fit_rejects_multicolumn {n m my : ℕ} (scale : Bool) (k : ℕ)
    (X : Mat n m) (Y : Mat n my) (h : 2 ≤ my) :
    fit scale k X Y = Except.error FitErr.shape := by
  obtain ⟨d, rfl⟩ : ∃ d, my = d + 2 := ⟨my - 2, by omega⟩
  rfl

/-- Witness for C6 at a concrete two-column target. -/
theorem fit_rejects_multicolumn_witness :
    2 ≤ 2 ∧ fit true 5 X6 Y6 = Except.error FitErr.shape :=
  ⟨le_refl 2, fit_rejects_multicolumn true 5 X6 Y6 (le_refl 2)⟩

/-- C7: `orthogonal_transform` returns the x-scores
`((X - x_mean)/x_std) · W_ortho` computed from the stored training
statistics; with a target it additionally returns the y-scores
`((Y - y_mean)/y_std) · c`, and without one it returns the x-scores alone. -/
theorem orthogonal_transform_spec {n m k p : ℕ} (M : FittedModel n m k)
    (Z : Mat p m) :
    orthogonal_transform M Z none =
      OrthResult.xOnly (fun i f =>
        dot (fun j => (Z i j - M.x_mean j) / M.x_std j)
          (fun j => M.orthogonal_x_weights j f)) ∧
    ∀ yv : Vec p,
      orthogonal_transform M Z (some yv) =
        OrthResult.both (fun i f =>
          dot (fun j => (Z i j - M.x_mean j) / M.x_std j)
            (fun j => M.orthogonal_x_weights j f))
          (fun i => (yv i - M.y_mean) / M.y_std * M.y_weights) :=
  ⟨rfl, fun _ => rfl⟩

/-- C10: `fit` never validates that `n_components` is positive: with
`n_components = 0` and a one-column target it completes successfully, the
extraction loop body runs zero times (the residual entering the terminal
regression is the untouched centered data, so the stored predictive
component is a single-component PLS on it; the orthogonal arrays have zero
columns by their type), and `transform` then returns its input minus that
input's own column means, with no filtering applied. -/
theorem fit_zero_components {n m : ℕ} (scale : Bool) (X : Mat n m)
    (Y : Mat n 1) :
    fit scale 0 X Y = Except.ok (fitModel scale 0 X (Ycol Y)) ∧
    (fitFinal scale 0 X (Ycol Y)).Xres = fitXres0 scale X ∧
    (fitModel scale 0 X (Ycol Y)).x_weights =
      plsW (fitYres scale (Ycol Y)) (fitXres0 scale X) ∧
    (fitModel scale 0 X (Ycol Y)).x_scores =
      plsT (fitYres scale (Ycol Y)) (fitXres0 scale X) ∧
    ∀ (p : ℕ) (Z : Mat p m),
      transform (fitModel scale 0 X (Ycol Y)) Z = centerX Z :=
  ⟨rfl, rfl, rfl, rfl, fun _ _ => rfl⟩

/-- C8: after every successful fit the stored scalars satisfy
`residual_sum_sq_Y_ = (1 - R²Y)·SS_Y`, `R²Y = (tᵗt)·b²·c²/SS_Y` and
`R²X = (tᵗt)(pᵗp)/SS_X`, where `t`, `p`, `c` are the stored terminal
predictive score, loading and target weight, `b` is the scalar `b_l` of
line 181 (`fitB`), and `SS_X`, `SS_Y` are the stored total sums of squares. -/
theorem fit_diagnostics {n m : ℕ} (scale : Bool) (k : ℕ) (X : Mat n m)
    (Y : Mat n 1) (M : FittedModel n m k) (h : fit scale k X Y = Except.ok M) :
    M.residual_sum_sq_Y = (1 - M.r_squared_Y) * M.sum_sq_Y ∧
    M.r_squared_Y = dot M.x_scores M.x_scores * fitB scale k X (Ycol Y) ^ 2 *
      M.y_weights ^ 2 / M.sum_sq_Y ∧
    M.r_squared_X = dot M.x_scores M.x_scores *
      dot M.x_loadings M.x_loadings / M.sum_sq_X := by
  obtain rfl : M = fitModel scale k X (Ycol Y) := (Except.ok.inj h).symm
  refine ⟨?_, rfl, rfl⟩
  show fitRSS scale k X (Ycol Y) =
    (1 - fitR2Y scale k X (Ycol Y)) * fitSSY scale (Ycol Y)
  unfold fitRSS
  ring

/-- Witness for C8 at a concrete successful fit. -/
theorem fit_diagnostics_witness :
    (fitModel true 1 Xw8 (Ycol Yw8)).residual_sum_sq_Y =
      (1 - (fitModel true 1 Xw8 (Ycol Yw8)).r_squared_Y) *
        (fitModel true 1 Xw8 (Ycol Yw8)).sum_sq_Y ∧
    (fitModel true 1 Xw8 (Ycol Yw8)).r_squared_Y =
      dot (fitModel true 1 Xw8 (Ycol Yw8)).x_scores
          (fitModel true 1 Xw8 (Ycol Yw8)).x_scores *
        fitB true 1 Xw8 (Ycol Yw8) ^ 2 *
        (fitModel true 1 Xw8 (Ycol Yw8)).y_weights ^ 2 /
        (fitModel true 1 Xw8 (Ycol Yw8)).sum_sq_Y ∧
    (fitModel true 1 Xw8 (Ycol Yw8)).r_squared_X =
      dot (fitModel true 1 Xw8 (Ycol Yw8)).x_scores
          (fitModel true 1 Xw8 (Ycol Yw8)).x_scores *
        dot (fitModel true 1 Xw8 (Ycol Yw8)).x_loadings
          (fitModel true 1 Xw8 (Ycol Yw8)).x_loadings /
        (fitModel true 1 Xw8 (Ycol Yw8)).sum_sq_X :=
  fit_diagnostics true 1 Xw8 Yw8 (fitModel true 1 Xw8 (Ycol Yw8)) rfl

/-- C9: after every successful fit no entry of `x_std_` or `y_std_` is zero;
with `scale=True` a column whose sample standard deviation is exactly zero
has its stored std remapped to `1.0` (lines 116 and 119), so the division is
a no-op; with `scale=False` all stored stds are exactly `1` and only
centering occurs.  The witness below runs `fit` on a zero-variance target,
showing such a fit still completes. -/
theorem fit_std_spec {n m : ℕ} (scale : Bool) (k : ℕ) (X : Mat n m)
    (Y : Mat n 1) (M : FittedModel n m k) (h : fit scale k X Y = Except.ok M) :
    (∀ j, M.x_std j ≠ 0) ∧ M.y_std ≠ 0 ∧
    (scale = false → (∀ j, M.x_std j = 1) ∧ M.y_std = 1) ∧
    (scale = true → ∀ j, stdCol X j = 0 → M.x_std j = 1) ∧
    (scale = true → stdVec (Ycol Y) = 0 → M.y_std = 1) := by
  obtain rfl : M = fitModel scale k X (Ycol Y) := (Except.ok.inj h).symm
  cases scale with
  | false =>
      refine ⟨fun j => ?_, ?_, fun _ => ⟨fun j => rfl, rfl⟩,
        fun hs => Bool.noConfusion hs, fun hs => Bool.noConfusion hs⟩
      · show (1 : ℝ) ≠ 0
        norm_num
      · show (1 : ℝ) ≠ 0
        norm_num
  | true =>
      refine ⟨fun j => ?_, ?_, fun hs => Bool.noConfusion hs,
        fun _ j hj => ?_, fun _ hy => ?_⟩
      · show (if stdCol (centerX X) j = 0 then (1 : ℝ)
            else stdCol (centerX X) j) ≠ 0
        by_cases hz : stdCol (centerX X) j = 0
        · simp [hz]
        · simp [hz]
      · show (if stdVec (centerYv (Ycol Y)) = 0 then (1 : ℝ)
            else stdVec (centerYv (Ycol Y))) ≠ 0
        by_cases hz : stdVec (centerYv (Ycol Y)) = 0
        · simp [hz]
        · simp [hz]
      · have hz : stdCol (centerX X) j = 0 := by rw [stdCol_centerX]; exact hj
        show (if stdCol (centerX X) j = 0 then (1 : ℝ)
            else stdCol (centerX X) j) = 1
        rw [if_pos hz]
      · have hz : stdVec (centerYv (Ycol Y)) = 0 := by
          rw [stdVec_centerYv]; exact hy
        show (if stdVec (centerYv (Ycol Y)) = 0 then (1 : ℝ)
            else stdVec (centerYv (Ycol Y))) = 1
        rw [if_pos hz]

/-- Witness for C9 at a concrete fit with a zero-variance feature column and
a zero-variance target. -/
theorem fit_std_spec_witness :
    (∀ j, (fitModel true 2 Xw9 (Ycol Yw9)).x_std j ≠ 0) ∧
    (fitModel true 2 Xw9 (Ycol Yw9)).y_std ≠ 0 ∧
    (true = false → (∀ j, (fitModel true 2 Xw9 (Ycol Yw9)).x_std j = 1) ∧
      (fitModel true 2 Xw9 (Ycol Yw9)).y_std = 1) ∧
    (true = true → ∀ j, stdCol Xw9 j = 0 →
      (fitModel true 2 Xw9 (Ycol Yw9)).x_std j = 1) ∧
    (true = true → stdVec (Ycol Yw9) = 0 →
      (fitModel true 2 Xw9 (Ycol Yw9)).y_std = 1) :=
  fit_std_spec true 2 Xw9 Yw9 (fitModel true 2 Xw9 (Ycol Yw9)) rfl

/-- C3 (amended): `pressd(X, y)` is the sum of squared residuals between `y`
and `predict(X)` clipped to the stored `[y_min_, y_max_]`, where `y_min_`
and `y_max_` are the minimum and maximum of the *centered and scaled* target
produced by `_center_scale_xy` (line 151 takes `np.min(Y)`/`np.max(Y)` after
Y was centered and scaled in place), not of the raw target values. -/
theorem pressd_spec {n m : ℕ} (scale : Bool) (k : ℕ) (X : Mat n m)
    (Y : Mat n 1) (M : FittedModel n m k) (h : fit scale k X Y = Except.ok M) :
    (∀ (p : ℕ) (Z : Mat p m) (y : Vec p),
      pressd M Z y = ∑ i, (y i - clip (predict M Z i) M.y_min M.y_max) ^ 2) ∧
    M.y_min = vecMin (csYv scale (Ycol Y)) ∧
    M.y_max = vecMax (csYv scale (Ycol Y)) := by
  obtain rfl : M = fitModel scale k X (Ycol Y) := (Except.ok.inj h).symm
  exact ⟨fun _ _ _ => rfl, rfl, rfl⟩

/-- Witness for the amended C3 at a concrete successful fit. -/
theorem pressd_spec_witness :
    (∀ (p : ℕ) (Z : Mat p 2) (y : Vec p),
      pressd (fitModel true 1 Xw3 (Ycol Yw3)) Z y =
        ∑ i, (y i - clip (predict (fitModel true 1 Xw3 (Ycol Yw3)) Z i)
          (fitModel true 1 Xw3 (Ycol Yw3)).y_min
          (fitModel true 1 Xw3 (Ycol Yw3)).y_max) ^ 2) ∧
    (fitModel true 1 Xw3 (Ycol Yw3)).y_min = vecMin (csYv true (Ycol Yw3)) ∧
    (fitModel true 1 Xw3 (Ycol Yw3)).y_max = vecMax (csYv true (Ycol Yw3)) :=
  pressd_spec true 1 Xw3 Yw3 (fitModel true 1 Xw3 (Ycol Yw3)) rfl

/-- Counterexample to C3 as stated: after the (numerically nondegenerate)
fit on the rank-2 matrix `Xa` and the target `(4, 5, 6)` with scale
disabled, the stored clipping range is the centered `[-1, 1]`; the
prediction `5` on a constant-row input is clipped to `1` by `pressd`,
whereas clipping to the raw target range `[4, 6]` would leave it at `5`;
the two sums of squared residuals differ (`9` versus `1`). -/
theorem pressd_raw_range_cex :
    pressd (fitModel false 1 Xa Ya) Xrow7 yObs ≠
      ∑ i, (yObs i - clip (predict (fitModel false 1 Xa Ya) Xrow7 i)
        (vecMin Ya) (vecMax Ya)) ^ 2 := by
  have hpred : ∀ i : Fin 1, predict (fitModel false 1 Xa Ya) Xrow7 i =
      (fitModel false 1 Xa Ya).y_mean := fun i => predict_single_row _ _ i
  have hmean : (fitModel false 1 Xa Ya).y_mean = 5 := by
    show mean Ya = 5
    norm_num [mean, Ya, Fin.sum_univ_three]
  have hmin : (fitModel false 1 Xa Ya).y_min = -1 := by
    show vecMin (csYv false Ya) = -1
    norm_num [vecMin, vecMinAux, csYv, centerYv, yStdv, mean, Ya,
      Fin.sum_univ_three, Fin.succ_zero_eq_one, Fin.succ_one_eq_two, min_def]
  have hmax : (fitModel false 1 Xa Ya).y_max = 1 := by
    show vecMax (csYv false Ya) = 1
    norm_num [vecMax, vecMaxAux, csYv, centerYv, yStdv, mean, Ya,
      Fin.sum_univ_three, Fin.succ_zero_eq_one, Fin.succ_one_eq_two, max_def]
  have hvmin : vecMin Ya = 4 := by
    norm_num [vecMin, vecMinAux, Ya, Fin.succ_zero_eq_one,
      Fin.succ_one_eq_two, min_def]
  have hvmax : vecMax Ya = 6 := by
    norm_num [vecMax, vecMaxAux, Ya, Fin.succ_zero_eq_one,
      Fin.succ_one_eq_two, max_def]
  unfold pressd
  rw [Fin.sum_univ_one, Fin.sum_univ_one, hpred 0, hmean, hmin, hmax, hvmin,
    hvmax]
  norm_num [yObs, clip, min_def, max_def]

/-- C4 (amended): `predict_proba` equals `0.5·clip(predict(X), −1, 1) + 1`
entrywise, and every entry lies in `[1/2, 3/2]` (not in `[0, 1]`). -/
theorem predict_proba_spec {n m k p : ℕ} (M : FittedModel n m k) (Z : Mat p m)
    (i : Fin p) :
    predict_proba M Z i = 0.5 * clip (predict M Z i) (-1) 1 + 1 ∧
    1 / 2 ≤ predict_proba M Z i ∧ predict_proba M Z i ≤ 3 / 2 := by
  refine ⟨rfl, ?_, ?_⟩
  · have h1 : (-1 : ℝ) ≤ clip (predict M Z i) (-1) 1 :=
      le_min (by norm_num) (le_max_left _ _)
    show (1 : ℝ) / 2 ≤ 0.5 * clip (predict M Z i) (-1) 1 + 1
    linarith
  · have h2 : clip (predict M Z i) (-1) 1 ≤ 1 := min_le_left _ _
    show 0.5 * clip (predict M Z i) (-1) 1 + 1 ≤ 3 / 2
    linarith

/-- Counterexample to C4 as stated: after the (numerically nondegenerate)
fit on the rank-2 matrix `Xa` and the target `(2, 3, 4)` (mean `3`), the
prediction on a constant-row input is `3`, so `predict_proba` returns
`0.5·clip(3, −1, 1) + 1 = 3/2`, which does not lie in `[0, 1]`. -/
theorem predict_proba_range_cex :
    predict_proba (fitModel false 1 Xa Yb) Xrow7 0 = 3 / 2 ∧
    ¬ predict_proba (fitModel false 1 Xa Yb) Xrow7 0 ≤ 1 := by
  have hmean : (fitModel false 1 Xa Yb).y_mean = 3 := by
    show mean Yb = 3
    norm_num [mean, Yb, Fin.sum_univ_three]
  have hp : predict (fitModel false 1 Xa Yb) Xrow7 0 = 3 := by
    rw [predict_single_row, hmean]
  have hv : predict_proba (fitModel false 1 Xa Yb) Xrow7 0 = 3 / 2 := by
    show 0.5 * clip (predict (fitModel false 1 Xa Yb) Xrow7 0) (-1) 1 + 1 = 3 / 2
    rw [hp]
    norm_num [clip, min_def, max_def]
  exact ⟨hv, by rw [hv]; norm_num⟩

/-- C5 (amended): on a model on which `fit` has never completed, `predict`
and `orthogonal_transform` fail with the not-fitted error of their
`check_is_fitted` guard; `transform` has no such guard: with
`n_components ≥ 1` it fails with the `None`-subscript type error (a
different error), and with `n_components = 0` it silently returns the
locally centered input. -/
theorem unfitted_apply_spec (n m k p : ℕ) (Z : Mat p m) (Yq : Option (Vec p)) :
    predictA (initAttrs n m k) Z = Except.error PyErr.notFitted ∧
    orthogonalTransformA (initAttrs n m k) Z Yq = Except.error PyErr.notFitted ∧
    transformA (initAttrs n m (k + 1)) Z = Except.error PyErr.noneType ∧
    transformA (initAttrs n m 0) Z = Except.ok (centerX Z) := by
  refine ⟨rfl, rfl, ?_, rfl⟩
  unfold transformA
  rw [List.finRange_succ, List.foldlM_cons]
  rfl

/-- Counterexample to C5 as stated: on the freshly constructed model,
`transform` with `n_components = 0` returns a value (the centered input)
instead of failing, and with `n_components = 5` it fails with the
`None`-subscript type error, which is not the not-fitted error. -/
theorem unfitted_transform_cex :
    transformA (initAttrs 1 1 0) Xcex5 = Except.ok (centerX Xcex5) ∧
    transformA (initAttrs 1 1 5) Xcex5 = Except.error PyErr.noneType ∧
    PyErr.noneType ≠ PyErr.notFitted := by
  exact ⟨rfl, rfl, by decide⟩

end

end PyOPLS
